import Mathlib

/-!
Shallow embedding of the tink-finance client library
(src/tink_finance/client.py and src/tink_finance/models.py).

Timestamps are modelled as integers (seconds).  The HTTP transport is
modelled by an environment function assigning to the i-th outbound
request its outcome; every client method threads an explicit state that
holds the single-slot token cache and the log of issued requests.
-/

namespace TinkFinance

/-- Embedding of models.TokenRequest (client-credentials form body). -/
structure TokenRequest where
  client_id : String
  client_secret : String
  grant_type : String
  scope : String
deriving Repr, DecidableEq

/-- Embedding of models.UserTokenRequest (authorization-code form body). -/
structure UserTokenRequest where
  client_id : String
  client_secret : String
  grant_type : String
  code : String
deriving Repr, DecidableEq

/-- Embedding of models.TokenResponse: the JSON body of a successful
token-endpoint response. -/
structure TokenResponse where
  access_token : String
  token_type : String
  expires_in : Int
  scope : String
deriving Repr, DecidableEq

/-- Embedding of models.Token.  created_at is the construction timestamp
(datetime.now at construction in the source). -/
structure Token where
  access_token : String
  token_type : String
  expires_in : Int
  scope : String
  created_at : Int
deriving Repr, DecidableEq

/-- Token.scopes: the scope string split on commas (Python
set(self.scope.split(.)) viewed as the underlying list; membership
coincides with set membership). -/
def Token.scopes (t : Token) : List String :=
  t.scope.splitOn ","

/-- Token.expires_at = created_at + expires_in seconds. -/
def Token.expires_at (t : Token) : Int :=
  t.created_at + t.expires_in

/-- Token.is_expired at time now: now >= expires_at.  The source reads
the clock; here the clock is an explicit argument. -/
def Token.is_expired (t : Token) (now : Int) : Bool :=
  decide (t.expires_at ≤ now)

/-- Token.has_scope: membership of one scope in the parsed scope set. -/
def Token.has_scope (t : Token) (required_scope : String) : Bool :=
  t.scopes.contains required_scope

/-- Token.has_all_scopes: the parsed scope set is a superset of the
required scopes (Python issuperset). -/
def Token.has_all_scopes (t : Token) (required_scopes : List String) : Bool :=
  required_scopes.all (fun s => t.scopes.contains s)

/-- Token.from_token_response: builds a Token from a TokenResponse; the
created_at field is the current time at construction. -/
def Token.from_token_response (tr : TokenResponse) (now : Int) : Token :=
  { access_token := tr.access_token
    token_type := tr.token_type
    expires_in := tr.expires_in
    scope := tr.scope
    created_at := now }

end TinkFinance

namespace TinkFinance

/-- Client configuration: client_id, client_secret, base_url (client.py
constructor after defaulting). -/
structure ClientConfig where
  client_id : String
  client_secret : String
  base_url : String
deriving Repr, DecidableEq

def TOKEN_ENDPOINT : String := "/oauth/token"

def AUTHORIZATION_GRANT_ENDPOINT : String := "/oauth/authorization-grant"

def USER_ENDPOINT : String := "/user"

def CREATE_USER_ENDPOINT : String := "/user/create"

def DELETE_USER_ENDPOINT : String := "/user/delete"

def USER_CREATION_SCOPES : List String := ["authorization:grant", "user:create"]

def USER_READ_SCOPES : List String := ["user:read"]

def USER_DELETE_SCOPES : List String := ["user:delete"]

/-- Python str.capitalize: first character upper-cased, the rest
lower-cased (used for the Authorization header token type). -/
def pyCapitalize (s : String) : String :=
  match s.data with
  | [] => ""
  | c :: cs => String.mk (c.toUpper :: cs.map Char.toLower)

/-- The Authorization header value built by every endpoint method. -/
def authHeader (t : Token) : String :=
  pyCapitalize t.token_type ++ " " ++ t.access_token

/-- Parsed response bodies the client can receive.  A body that does not
match what the call site parses behaves like a pydantic validation
failure (the except-Exception path in the source). -/
inductive Body where
  | tokenBody (tr : TokenResponse)
  | grantBody (code : String)
  | createUserBody (user_id : String)
  | userBody (payload : String)
  | empty
deriving Repr, DecidableEq

/-- Outcome of one outbound HTTP request, as the transport reports it:
a status plus body, an httpx.RequestError, or some other raised
exception. -/
inductive Outcome where
  | http (status : Nat) (body : Body)
  | transportError (msg : String)
  | raisedOther (msg : String)
deriving Repr, DecidableEq

/-- One outbound request: URL, content type, optional Authorization
header, and the dumped body as key and optional value pairs. -/
structure HttpRequest where
  url : String
  contentType : String
  auth : Option String
  formData : List (String × Option String)
deriving Repr, DecidableEq

/-- Errors an embedded method can finish with.  The first three are the
library exception classes (TinkAuthenticationError, TinkAPIError and
ValueError); validationError is a pydantic ValidationError raised while
constructing a request model, which no call site catches; the last
three model raw exceptions that escape the source retry blocks
uncaught: httpx.HTTPStatusError with its status, httpx.RequestError,
and any other exception. -/
inductive RaisedError where
  | authenticationError (msg : String)
  | apiError (msg : String)
  | valueError (msg : String)
  | validationError (msg : String)
  | httpStatusError (status : Nat)
  | requestError (msg : String)
  | otherException (msg : String)
deriving Repr, DecidableEq

/-- Client state threaded through every embedded method: the single-slot
token cache and the log of requests issued so far. -/
structure St where
  cache : Option Token
  sent : List HttpRequest
deriving Repr, DecidableEq

/-- The empty starting state: no cached token, no request issued. -/
def st0 : St := { cache := none, sent := [] }

/-- An environment answers the i-th outbound request (0-based, counted
over the whole execution) with an outcome. -/
def Env : Type := Nat → Outcome

/-- Issue one request: look up the outcome for the next request index
and append the request to the log. -/
def post (env : Env) (st : St) (req : HttpRequest) : Outcome × St :=
  (env st.sent.length, { st with sent := st.sent ++ [req] })

/-- httpx Response.is_success: 2xx statuses; raise_for_status raises for
everything else. -/
def isSuccess (status : Nat) : Bool :=
  decide (200 ≤ status ∧ status ≤ 299)

/-- Parse an outcome body at a token call site (TokenResponse(**json)). -/
def Body.parseToken : Body → Option TokenResponse
  | .tokenBody tr => some tr
  | _ => none

/-- Parse an outcome body at the authorization-grant call site. -/
def Body.parseGrant : Body → Option String
  | .grantBody c => some c
  | _ => none

/-- Parse an outcome body at the create-user call site. -/
def Body.parseCreateUser : Body → Option String
  | .createUserBody u => some u
  | _ => none

/-- Parse an outcome body at the get-user call site. -/
def Body.parseUser : Body → Option String
  | .userBody u => some u
  | _ => none

/-- TokenRequest.model_dump as ordered form data. -/
def TokenRequest.model_dump (r : TokenRequest) : List (String × Option String) :=
  [("client_id", some r.client_id), ("client_secret", some r.client_secret),
   ("grant_type", some r.grant_type), ("scope", some r.scope)]

/-- UserTokenRequest.model_dump as ordered form data. -/
def UserTokenRequest.model_dump (r : UserTokenRequest) : List (String × Option String) :=
  [("client_id", some r.client_id), ("client_secret", some r.client_secret),
   ("grant_type", some r.grant_type), ("code", some r.code)]

/-- Embedding of TinkClient._get_access_token: posts a form-encoded
client-credentials token request and maps the outcome exactly as the
try/except chain in the source does. -/
def getAccessToken (cfg : ClientConfig) (scope : String) (now : Int)
    (env : Env) (st : St) : Except RaisedError Token × St :=
  let token_request : TokenRequest :=
    { client_id := cfg.client_id, client_secret := cfg.client_secret,
      grant_type := "client_credentials", scope := scope }
  let url := cfg.base_url ++ TOKEN_ENDPOINT
  let (outcome, st) := post env st
    { url := url, contentType := "application/x-www-form-urlencoded",
      auth := none, formData := token_request.model_dump }
  match outcome with
  | .http status body =>
    if isSuccess status then
      match body.parseToken with
      | some tr => (.ok (Token.from_token_response tr now), st)
      | none => (.error (.apiError "Unexpected error: invalid token response body"), st)
    else if status = 401 then
      (.error (.authenticationError "Invalid client credentials"), st)
    else
      (.error (.apiError ("API request failed: " ++ toString status)), st)
  | .transportError m => (.error (.apiError ("Request failed: " ++ m)), st)
  | .raisedOther m => (.error (.apiError ("Unexpected error: " ++ m)), st)

/-- Embedding of TinkClient._get_valid_token: returns the cached token
when it is present, unexpired and covers the required scopes; otherwise
fetches a fresh token for the comma-joined scope string and stores it in
the cache slot. -/
def getValidToken (cfg : ClientConfig) (required_scopes : List String) (now : Int)
    (env : Env) (st : St) : Except RaisedError Token × St :=
  match st.cache with
  | some t =>
    if t.is_expired now = false ∧ t.has_all_scopes required_scopes = true then
      (.ok t, st)
    else
      let scope_string := String.intercalate "," required_scopes
      match getAccessToken cfg scope_string now env st with
      | (.ok tok, st) => (.ok tok, { st with cache := some tok })
      | (.error e, st) => (.error e, st)
  | none =>
    let scope_string := String.intercalate "," required_scopes
    match getAccessToken cfg scope_string now env st with
    | (.ok tok, st) => (.ok tok, { st with cache := some tok })
    | (.error e, st) => (.error e, st)

/-- Python truthiness of an optional string argument: None and the empty
string are falsy, every other string is truthy.  The source validation
uses plain `not user_id` checks, so it follows this notion. -/
def truthy : Option String → Bool
  | none => false
  | some s => !s.isEmpty

/-- Embedding of models.CreateUserRequest. -/
structure CreateUserRequest where
  market : String
  locale : String
  external_user_id : Option String
deriving Repr, DecidableEq

/-- CreateUserRequest.model_dump(exclude_none=True): a None
external_user_id is dropped from the body. -/
def CreateUserRequest.model_dump_exclude_none (r : CreateUserRequest) :
    List (String × Option String) :=
  [("market", some r.market), ("locale", some r.locale)] ++
    (match r.external_user_id with
     | some e => [("external_user_id", some e)]
     | none => [])

/-- Embedding of models.AuthorizationGrantRequest (as built by the
grant call sites: one optional subject id and a comma-joined scope). -/
structure AuthorizationGrantRequest where
  user_id : Option String
  external_user_id : Option String
  scope : String
deriving Repr, DecidableEq

/-- AuthorizationGrantRequest.model_dump as ordered form data; the None
subject field is kept with a None value as pydantic model_dump does. -/
def AuthorizationGrantRequest.model_dump (r : AuthorizationGrantRequest) :
    List (String × Option String) :=
  [("user_id", r.user_id), ("external_user_id", r.external_user_id),
   ("scope", some r.scope)]

/-- Embedding of models.AuthorizationGrantResponse. -/
structure AuthorizationGrantResponse where
  code : String
deriving Repr, DecidableEq

/-- Embedding of models.CreateUserResponse. -/
structure CreateUserResponse where
  user_id : String
deriving Repr, DecidableEq

/-- Embedding of models.UserResponse, abstracted to the payload the
get-user call site parses; the claims under verification never inspect
its fields. -/
structure UserResponse where
  payload : String
deriving Repr, DecidableEq

/-- Embedding of TinkClient._get_user_token_internal: posts a
form-encoded authorization_code token request; identical failure
mapping to _get_access_token except the 401 message.  It never touches
the token cache. -/
def getUserTokenInternal (cfg : ClientConfig) (authorization_code : String) (now : Int)
    (env : Env) (st : St) : Except RaisedError Token × St :=
  let token_request : UserTokenRequest :=
    { client_id := cfg.client_id, client_secret := cfg.client_secret,
      grant_type := "authorization_code", code := authorization_code }
  let url := cfg.base_url ++ TOKEN_ENDPOINT
  let (outcome, st) := post env st
    { url := url, contentType := "application/x-www-form-urlencoded",
      auth := none, formData := token_request.model_dump }
  match outcome with
  | .http status body =>
    if isSuccess status then
      match body.parseToken with
      | some tr => (.ok (Token.from_token_response tr now), st)
      | none => (.error (.apiError "Unexpected error: invalid token response body"), st)
    else if status = 401 then
      (.error (.authenticationError "Invalid authorization code"), st)
    else
      (.error (.apiError ("API request failed: " ++ toString status)), st)
  | .transportError m => (.error (.apiError ("Request failed: " ++ m)), st)
  | .raisedOther m => (.error (.apiError ("Unexpected error: " ++ m)), st)

/-- Embedding of TinkClient._grant_user_access_internal: validates the
mutually exclusive subject pair, obtains an app token, builds the
AuthorizationGrantRequest (whose pydantic scope validator rejects an
empty joined scope string; the construction happens after the token
fetch and outside the try, so that ValidationError escapes raw), posts
the grant request, and on a 401 clears the cache and retries once with
a fresh token.  Failures raised inside the retry handler escape the
sibling except clauses, so a second 401 surfaces as a raw
httpStatusError. -/
def grantUserAccessInternal (cfg : ClientConfig)
    (user_id external_user_id : Option String) (scopes : List String) (now : Int)
    (env : Env) (st : St) : Except RaisedError AuthorizationGrantResponse × St :=
  if truthy user_id = false ∧ truthy external_user_id = false then
    (.error (.valueError "Either user_id or external_user_id must be provided"), st)
  else if truthy user_id = true ∧ truthy external_user_id = true then
    (.error (.valueError "Cannot specify both user_id and external_user_id"), st)
  else
    match getValidToken cfg USER_CREATION_SCOPES now env st with
    | (.error e, st) => (.error e, st)
    | (.ok token, st) =>
      if (String.intercalate "," scopes).isEmpty = true then
        (.error (.validationError "Scope cannot be empty"), st)
      else
      let grant_request : AuthorizationGrantRequest :=
        { user_id := user_id, external_user_id := external_user_id,
          scope := String.intercalate "," scopes }
      let url := cfg.base_url ++ AUTHORIZATION_GRANT_ENDPOINT
      let (outcome, st) := post env st
        { url := url, contentType := "application/x-www-form-urlencoded",
          auth := some (authHeader token), formData := grant_request.model_dump }
      match outcome with
      | .http status body =>
        if isSuccess status then
          match body.parseGrant with
          | some c => (.ok ⟨c⟩, st)
          | none => (.error (.apiError "Unexpected error: invalid grant response body"), st)
        else if status = 401 then
          let st : St := { st with cache := none }
          match getValidToken cfg USER_CREATION_SCOPES now env st with
          | (.error e, st) => (.error e, st)
          | (.ok token, st) =>
            let (outcome2, st) := post env st
              { url := url, contentType := "application/x-www-form-urlencoded",
                auth := some (authHeader token), formData := grant_request.model_dump }
            match outcome2 with
            | .http status2 body2 =>
              if isSuccess status2 then
                match body2.parseGrant with
                | some c => (.ok ⟨c⟩, st)
                | none => (.error (.otherException "invalid grant response body"), st)
              else
                (.error (.httpStatusError status2), st)
            | .transportError m => (.error (.requestError m), st)
            | .raisedOther m => (.error (.otherException m), st)
        else
          (.error (.apiError ("Grant user access failed: " ++ toString status)), st)
      | .transportError m => (.error (.apiError ("Request failed: " ++ m)), st)
      | .raisedOther m => (.error (.apiError ("Unexpected error: " ++ m)), st)

/-- Embedding of TinkClient.create_user: obtains an app token, posts the
JSON create request, and on a 401 clears the cache and retries once.
As in the source, failures raised inside the retry handler escape the
sibling except clauses uncaught. -/
def createUser (cfg : ClientConfig) (market locale : String)
    (external_user_id : Option String) (now : Int)
    (env : Env) (st : St) : Except RaisedError CreateUserResponse × St :=
  match getValidToken cfg USER_CREATION_SCOPES now env st with
  | (.error e, st) => (.error e, st)
  | (.ok token, st) =>
    let create_request : CreateUserRequest :=
      { market := market, locale := locale, external_user_id := external_user_id }
    let url := cfg.base_url ++ CREATE_USER_ENDPOINT
    let (outcome, st) := post env st
      { url := url, contentType := "application/json",
        auth := some (authHeader token),
        formData := create_request.model_dump_exclude_none }
    match outcome with
    | .http status body =>
      if isSuccess status then
        match body.parseCreateUser with
        | some u => (.ok ⟨u⟩, st)
        | none => (.error (.apiError "Unexpected error: invalid create user response body"), st)
      else if status = 401 then
        let st : St := { st with cache := none }
        match getValidToken cfg USER_CREATION_SCOPES now env st with
        | (.error e, st) => (.error e, st)
        | (.ok token, st) =>
          let (outcome2, st) := post env st
            { url := url, contentType := "application/json",
              auth := some (authHeader token),
              formData := create_request.model_dump_exclude_none }
          match outcome2 with
          | .http status2 body2 =>
            if isSuccess status2 then
              match body2.parseCreateUser with
              | some u => (.ok ⟨u⟩, st)
              | none => (.error (.otherException "invalid create user response body"), st)
            else
              (.error (.httpStatusError status2), st)
          | .transportError m => (.error (.requestError m), st)
          | .raisedOther m => (.error (.otherException m), st)
      else
        (.error (.apiError ("Create user failed: " ++ toString status)), st)
    | .transportError m => (.error (.apiError ("Request failed: " ++ m)), st)
    | .raisedOther m => (.error (.apiError ("Unexpected error: " ++ m)), st)

/-- Embedding of TinkClient.get_user: validates the subject pair, runs
the internal grant, exchanges the grant code for a user token, then
issues the authenticated GET.  A 401 on the GET raises
TinkAuthenticationError immediately; there is no retry at this call
site. -/
def getUser (cfg : ClientConfig) (user_id external_user_id : Option String) (now : Int)
    (env : Env) (st : St) : Except RaisedError UserResponse × St :=
  if truthy user_id = false ∧ truthy external_user_id = false then
    (.error (.valueError "Either user_id or external_user_id must be provided"), st)
  else if truthy user_id = true ∧ truthy external_user_id = true then
    (.error (.valueError "Cannot specify both user_id and external_user_id"), st)
  else
    match grantUserAccessInternal cfg user_id external_user_id USER_READ_SCOPES now env st with
    | (.error e, st) => (.error e, st)
    | (.ok grant_response, st) =>
      match getUserTokenInternal cfg grant_response.code now env st with
      | (.error e, st) => (.error e, st)
      | (.ok user_token, st) =>
        let url := cfg.base_url ++ USER_ENDPOINT
        let (outcome, st) := post env st
          { url := url, contentType := "application/json",
            auth := some (authHeader user_token), formData := [] }
        match outcome with
        | .http status body =>
          if isSuccess status then
            match body.parseUser with
            | some u => (.ok ⟨u⟩, st)
            | none => (.error (.apiError "Unexpected error: invalid user response body"), st)
          else if status = 401 then
            (.error (.authenticationError "Invalid user token"), st)
          else
            (.error (.apiError ("Get user failed: " ++ toString status)), st)
        | .transportError m => (.error (.apiError ("Request failed: " ++ m)), st)
        | .raisedOther m => (.error (.apiError ("Unexpected error: " ++ m)), st)

/-- Embedding of TinkClient.delete_user: validates the subject pair,
runs the internal grant, exchanges for a user token, then posts the
delete request.  A 401 raises TinkAuthenticationError immediately; no
retry at this call site. -/
def deleteUser (cfg : ClientConfig) (user_id external_user_id : Option String) (now : Int)
    (env : Env) (st : St) : Except RaisedError Unit × St :=
  if truthy user_id = false ∧ truthy external_user_id = false then
    (.error (.valueError "Either user_id or external_user_id must be provided"), st)
  else if truthy user_id = true ∧ truthy external_user_id = true then
    (.error (.valueError "Cannot specify both user_id and external_user_id"), st)
  else
    match grantUserAccessInternal cfg user_id external_user_id USER_DELETE_SCOPES now env st with
    | (.error e, st) => (.error e, st)
    | (.ok grant_response, st) =>
      match getUserTokenInternal cfg grant_response.code now env st with
      | (.error e, st) => (.error e, st)
      | (.ok user_token, st) =>
        let url := cfg.base_url ++ DELETE_USER_ENDPOINT
        let (outcome, st) := post env st
          { url := url, contentType := "application/json",
            auth := some (authHeader user_token), formData := [] }
        match outcome with
        | .http status _ =>
          if isSuccess status then
            (.ok (), st)
          else if status = 401 then
            (.error (.authenticationError "Invalid user token"), st)
          else
            (.error (.apiError ("Delete user failed: " ++ toString status)), st)
        | .transportError m => (.error (.apiError ("Request failed: " ++ m)), st)
        | .raisedOther m => (.error (.apiError ("Unexpected error: " ++ m)), st)

/-- Number of requests in the log aimed at one URL. -/
def sentTo (st : St) (url : String) : Nat :=
  (st.sent.filter (fun r => r.url == url)).length

/-- The request _get_user_token_internal posts, as built on lines
398-412 of client.py. -/
def userTokenHttpRequest (cfg : ClientConfig) (authorization_code : String) : HttpRequest :=
  { url := cfg.base_url ++ TOKEN_ENDPOINT,
    contentType := "application/x-www-form-urlencoded",
    auth := none,
    formData := [("client_id", some cfg.client_id),
                 ("client_secret", some cfg.client_secret),
                 ("grant_type", some "authorization_code"),
                 ("code", some authorization_code)] }

/-- The request _get_access_token posts, as built on lines 94-108 of
client.py. -/
def ccTokenHttpRequest (cfg : ClientConfig) (scope : String) : HttpRequest :=
  { url := cfg.base_url ++ TOKEN_ENDPOINT,
    contentType := "application/x-www-form-urlencoded",
    auth := none,
    formData := [("client_id", some cfg.client_id),
                 ("client_secret", some cfg.client_secret),
                 ("grant_type", some "client_credentials"),
                 ("scope", some scope)] }

/-- Modelled from the spec, section 4.3: the failure mapping of a token
fetch.  HTTP 401 maps to AuthenticationError with the call-site message;
any other non-2xx maps to APIError carrying the status code; a
network/transport failure maps to APIError carrying the cause; any other
unexpected exception maps to APIError wrapping it; a 2xx response with a
well-formed token body yields a Token. -/
def specTokenFetchMapping (authMsg : String) (now : Int) (o : Outcome) :
    Except RaisedError Token :=
  match o with
  | .http status body =>
    if status = 401 then
      .error (.authenticationError authMsg)
    else if 200 ≤ status ∧ status ≤ 299 then
      match body.parseToken with
      | some tr => .ok (Token.from_token_response tr now)
      | none => .error (.apiError "Unexpected error: invalid token response body")
    else
      .error (.apiError ("API request failed: " ++ toString status))
  | .transportError m => .error (.apiError ("Request failed: " ++ m))
  | .raisedOther m => .error (.apiError ("Unexpected error: " ++ m))

/-- Modelled from the spec, section 4.2: the TokenCache.getValid
contract.  Return the cached token when present, unexpired and a
scope-superset of the requirement; otherwise call the acquirer with the
comma-joined required-scope string in caller-supplied order and store
the result, replacing any prior entry. -/
def specGetValid (cfg : ClientConfig) (requiredScopes : List String) (now : Int)
    (env : Env) (st : St) : Except RaisedError Token × St :=
  let usable : Option Token :=
    match st.cache with
    | some t =>
      if t.is_expired now = false ∧ t.has_all_scopes requiredScopes = true then some t
      else none
    | none => none
  match usable with
  | some t => (.ok t, st)
  | none =>
    match getAccessToken cfg (String.intercalate "," requiredScopes) now env st with
    | (.ok tok, st2) => (.ok tok, { st2 with cache := some tok })
    | (.error e, st2) => (.error e, st2)

/-- The request _grant_user_access_internal posts, as built on lines
343-359 of client.py. -/
def grantHttpRequest (cfg : ClientConfig) (tok : Token)
    (user_id external_user_id : Option String) (scopes : List String) : HttpRequest :=
  { url := cfg.base_url ++ AUTHORIZATION_GRANT_ENDPOINT,
    contentType := "application/x-www-form-urlencoded",
    auth := some (authHeader tok),
    formData := [("user_id", user_id), ("external_user_id", external_user_id),
                 ("scope", some (String.intercalate "," scopes))] }

/-- A concrete client configuration used for the evaluated scenarios. -/
def cfgT : ClientConfig :=
  { client_id := "cid", client_secret := "secret",
    base_url := "https://api.tink.com/api/v1" }

/-- A concrete well-formed token-endpoint response body. -/
def trT : TokenResponse :=
  { access_token := "abc", token_type := "bearer", expires_in := 3600,
    scope := "authorization:grant,user:create" }

/-- Scenario for the second-401 behaviour: the token endpoint always
succeeds, every endpoint request is answered 401. -/
def envC1 : Env := fun n =>
  match n with
  | 0 => .http 200 (.tokenBody trT)
  | 1 => .http 401 .empty
  | 2 => .http 200 (.tokenBody trT)
  | _ => .http 401 .empty

/-- Scenario for get_user and delete_user: token fetch, grant and
user-token exchange succeed, the final authenticated request is
answered 401. -/
def envC2 : Env := fun n =>
  match n with
  | 0 => .http 200 (.tokenBody trT)
  | 1 => .http 200 (.grantBody "xyz")
  | 2 => .http 200 (.tokenBody trT)
  | _ => .http 401 .empty

/-- Scenario in which every request succeeds with the body its call
site expects. -/
def envOk : Env := fun n =>
  match n with
  | 0 => .http 200 (.tokenBody trT)
  | 1 => .http 200 (.grantBody "xyz")
  | 2 => .http 200 (.tokenBody trT)
  | _ => .http 200 (.userBody "payload")

/-- An environment answering every request with the same well-formed
token body. -/
def envTok : Env := fun _ => .http 200 (.tokenBody trT)

/-- Scenario for the create_user retry: first endpoint attempt is
answered 401, the retried attempt succeeds. -/
def envC3 : Env := fun n =>
  match n with
  | 0 => .http 200 (.tokenBody trT)
  | 1 => .http 401 .empty
  | 2 => .http 200 (.tokenBody trT)
  | _ => .http 200 (.createUserBody "uid1")

/-- Shared state of the concurrency model of _get_valid_token: the
single cache slot plus the number of token fetches issued so far. -/
structure SharedState where
  cache : Option Token
  fetchCount : Nat
deriving Repr, DecidableEq

/-- Program counter of one coroutine running _get_valid_token.  The
method has a single suspension point, the await of _get_access_token:
ready is before the cache check, fetching is suspended inside the
await (the fetch has been issued), finished holds the returned
token. -/
inductive TaskPC where
  | ready
  | fetching (scope_string : String)
  | finished (t : Token)
deriving Repr, DecidableEq

/-- One cooperative step of a _get_valid_token coroutine.  From ready
the synchronous prefix runs: the cache check, and on a miss the fetch
is issued (counted) before the task suspends at the await.  From
fetching the awaited fetch completes: the token the server mints for
the requested scope string is stored in the cache slot and returned.
There is no lock anywhere in the source, so nothing prevents another
task from running its own cache check between these two steps. -/
def taskStep (S : List String) (now : Int) (mint : String → Token)
    (sh : SharedState) (pc : TaskPC) : SharedState × TaskPC :=
  match pc with
  | .ready =>
    match sh.cache with
    | some t =>
      if t.is_expired now = false ∧ t.has_all_scopes S = true then
        (sh, .finished t)
      else
        ({ sh with fetchCount := sh.fetchCount + 1 },
         .fetching (String.intercalate "," S))
    | none =>
      ({ sh with fetchCount := sh.fetchCount + 1 },
       .fetching (String.intercalate "," S))
  | .fetching scope_string =>
    let t := mint scope_string
    ({ sh with cache := some t }, .finished t)
  | .finished t => (sh, .finished t)

/-- Run two _get_valid_token coroutines under an explicit cooperative
schedule: each entry names the task that runs its next step. -/
def runSched (S : List String) (now : Int) (mint : String → Token) :
    List Bool → SharedState → TaskPC × TaskPC → SharedState × (TaskPC × TaskPC)
  | [], sh, pcs => (sh, pcs)
  | b :: rest, sh, (p0, p1) =>
    if b then
      let (sh2, p1') := taskStep S now mint sh p1
      runSched S now mint rest sh2 (p0, p1')
    else
      let (sh2, p0') := taskStep S now mint sh p0
      runSched S now mint rest sh2 (p0', p1)

/-- The token the mocked server mints in the concurrency scenario. -/
def mintT : String → Token := fun s =>
  { access_token := "abc", token_type := "bearer", expires_in := 3600,
    scope := s, created_at := 0 }

/-- The shared state both coroutines start from: empty cache, no fetch
issued. -/
def sh0 : SharedState := { cache := none, fetchCount := 0 }

end TinkFinance

namespace TinkFinance

lemma getAccessToken_cache_eq (cfg : ClientConfig) (scope : String) (now : Int)
    (env : Env) (st : St) : (getAccessToken cfg scope now env st).2.cache = st.cache := by
  unfold getAccessToken post
  rcases env st.sent.length with ⟨s, b⟩ | m | m
  · dsimp only
    split
    · rcases b.parseToken with _ | tr <;> rfl
    · split <;> rfl
  · rfl
  · rfl

lemma getUserTokenInternal_cache_eq (cfg : ClientConfig) (code : String) (now : Int)
    (env : Env) (st : St) :
    (getUserTokenInternal cfg code now env st).2.cache = st.cache := by
  unfold getUserTokenInternal post
  rcases env st.sent.length with ⟨s, b⟩ | m | m
  · dsimp only
    split
    · rcases b.parseToken with _ | tr <;> rfl
    · split <;> rfl
  · rfl
  · rfl

lemma getAccessToken_ok (cfg : ClientConfig) (scope : String) (now : Int)
    (env : Env) (st : St) (tr : TokenResponse)
    (henv : env st.sent.length = .http 200 (.tokenBody tr)) :
    getAccessToken cfg scope now env st =
      (.ok (Token.from_token_response tr now),
       { st with sent := st.sent ++ [ccTokenHttpRequest cfg scope] }) := by
  have h200 : isSuccess 200 = true := rfl
  unfold getAccessToken post ccTokenHttpRequest TokenRequest.model_dump
  simp [henv, h200, Body.parseToken]

lemma getUserTokenInternal_ok (cfg : ClientConfig) (code : String) (now : Int)
    (env : Env) (st : St) (tr : TokenResponse)
    (henv : env st.sent.length = .http 200 (.tokenBody tr)) :
    getUserTokenInternal cfg code now env st =
      (.ok (Token.from_token_response tr now),
       { st with sent := st.sent ++ [userTokenHttpRequest cfg code] }) := by
  have h200 : isSuccess 200 = true := rfl
  unfold getUserTokenInternal post userTokenHttpRequest UserTokenRequest.model_dump
  simp [henv, h200, Body.parseToken]

lemma getValidToken_none_ok (cfg : ClientConfig) (S : List String) (now : Int)
    (env : Env) (st : St) (tr : TokenResponse)
    (hcache : st.cache = none)
    (henv : env st.sent.length = .http 200 (.tokenBody tr)) :
    getValidToken cfg S now env st =
      (.ok (Token.from_token_response tr now),
       { cache := some (Token.from_token_response tr now),
         sent := st.sent ++ [ccTokenHttpRequest cfg (String.intercalate "," S)] }) := by
  have hfetch := getAccessToken_ok cfg (String.intercalate "," S) now env st tr henv
  unfold getValidToken
  simp only [hcache, hfetch]

lemma grantUserAccessInternal_ok (cfg : ClientConfig)
    (user_id external_user_id : Option String) (scopes : List String) (now : Int)
    (env : Env) (st : St) (tr : TokenResponse) (c : String)
    (hx : truthy user_id ≠ truthy external_user_id)
    (hsne : (String.intercalate "," scopes).isEmpty = false)
    (hcache : st.cache = none)
    (h0 : env st.sent.length = .http 200 (.tokenBody tr))
    (h1 : env (st.sent.length + 1) = .http 200 (.grantBody c)) :
    grantUserAccessInternal cfg user_id external_user_id scopes now env st =
      (.ok ⟨c⟩,
       { cache := some (Token.from_token_response tr now),
         sent := st.sent ++
           [ccTokenHttpRequest cfg (String.intercalate "," USER_CREATION_SCOPES),
            grantHttpRequest cfg (Token.from_token_response tr now)
              user_id external_user_id scopes] }) := by
  have h200 : isSuccess 200 = true := rfl
  have hv := getValidToken_none_ok cfg USER_CREATION_SCOPES now env st tr hcache h0
  have hlen : (st.sent ++
      [ccTokenHttpRequest cfg (String.intercalate "," USER_CREATION_SCOPES)]).length =
      st.sent.length + 1 := by simp
  unfold grantUserAccessInternal
  rcases hu : truthy user_id <;> rcases he : truthy external_user_id <;>
    rw [hu, he] at hx <;> try exact absurd rfl hx
  all_goals
    simp only [hv, hsne, Bool.false_eq_true, if_false, post, grantHttpRequest,
      AuthorizationGrantRequest.model_dump, hlen, h1,
      h200, Body.parseGrant, List.append_assoc, List.singleton_append]
    simp

end TinkFinance

namespace TinkFinance

lemma getUserTokenInternal_sent_eq (cfg : ClientConfig) (code : String) (now : Int)
    (env : Env) (st : St) :
    (getUserTokenInternal cfg code now env st).2.sent =
      st.sent ++ [userTokenHttpRequest cfg code] := by
  unfold getUserTokenInternal post userTokenHttpRequest UserTokenRequest.model_dump
  rcases env st.sent.length with ⟨s, b⟩ | m | m
  · dsimp only
    split
    · rcases b.parseToken with _ | tr <;> rfl
    · split <;> rfl
  · rfl
  · rfl

end TinkFinance

namespace TinkFinance

/-- Claim C6: for every Token t with expires_in = E and created_at = T and
every time now, t.expires_at = T + E, and t.is_expired holds exactly when
now is at or past T + E. -/
theorem token_expiry_correct (t : Token) (now : Int) :
    t.expires_at = t.created_at + t.expires_in ∧
    (t.is_expired now = true ↔ t.created_at + t.expires_in ≤ now) := by
  constructor
  · rfl
  · simp [Token.is_expired, Token.expires_at]

/-- Claim C7: has_all_scopes B is true exactly when every required scope
in B belongs to the scope set A obtained by splitting the token scope
string on commas. -/
theorem has_all_scopes_iff_subset (t : Token) (B : List String) :
    (t.has_all_scopes B = true ↔ ∀ s ∈ B, s ∈ t.scope.splitOn ",") ∧
    t.scopes = t.scope.splitOn "," := by
  refine ⟨?_, rfl⟩
  simp [Token.has_all_scopes, Token.scopes, List.all_eq_true, List.contains,
    List.elem_iff]

/-- Claim C4: both token-fetch operations map every outcome exactly as
the failure-mapping contract states: 401 to AuthenticationError with the
call-site message, other non-2xx to APIError with the status, transport
failure and unexpected exceptions to APIError, and a 2xx well-formed
body to a returned Token. -/
theorem token_fetch_failure_mapping (cfg : ClientConfig) (scope code : String)
    (now : Int) (env : Env) (st : St) :
    (getAccessToken cfg scope now env st).1 =
      specTokenFetchMapping "Invalid client credentials" now (env st.sent.length) ∧
    (getUserTokenInternal cfg code now env st).1 =
      specTokenFetchMapping "Invalid authorization code" now (env st.sent.length) := by
  constructor
  · unfold getAccessToken post specTokenFetchMapping
    rcases env st.sent.length with ⟨s, b⟩ | m | m
    · dsimp only
      by_cases h4 : s = 401
      · subst h4
        simp [isSuccess]
      · by_cases hs : 200 ≤ s ∧ s ≤ 299
        · rcases hp : b.parseToken with _ | tr <;> simp [isSuccess, hs, h4, hp]
        · simp [isSuccess, hs, h4]
    · rfl
    · rfl
  · unfold getUserTokenInternal post specTokenFetchMapping
    rcases env st.sent.length with ⟨s, b⟩ | m | m
    · dsimp only
      by_cases h4 : s = 401
      · subst h4
        simp [isSuccess]
      · by_cases hs : 200 ≤ s ∧ s ≤ 299
        · rcases hp : b.parseToken with _ | tr <;> simp [isSuccess, hs, h4, hp]
        · simp [isSuccess, hs, h4]
    · rfl
    · rfl

/-- Claim C8: for every authorization code, the user-token exchange
issues exactly one request, form-encoded to the token endpoint, whose
body carries the code unchanged together with client_id, client_secret
and grant_type authorization_code. -/
theorem user_token_request_roundtrip (cfg : ClientConfig) (code : String)
    (now : Int) (env : Env) (st : St) :
    (getUserTokenInternal cfg code now env st).2.sent =
      st.sent ++ [userTokenHttpRequest cfg code] ∧
    (userTokenHttpRequest cfg code).url = cfg.base_url ++ "/oauth/token" ∧
    (userTokenHttpRequest cfg code).contentType = "application/x-www-form-urlencoded" ∧
    (userTokenHttpRequest cfg code).formData =
      [("client_id", some cfg.client_id), ("client_secret", some cfg.client_secret),
       ("grant_type", some "authorization_code"), ("code", some code)] := by
  exact ⟨getUserTokenInternal_sent_eq cfg code now env st, rfl, rfl, rfl⟩

/-- Claim C9: the user-token exchange leaves the token cache unchanged;
get_user changes the cache exactly as its internal grant step does (the
exchange and the final authenticated call never write to it); and
getValid either leaves the cache alone or stores precisely the token the
client-credentials fetch returned, so the slot only ever holds
client-credentials tokens. -/
theorem user_token_never_cached (cfg : ClientConfig) (code : String)
    (user_id external_user_id : Option String) (S : List String)
    (now : Int) (env : Env) (st : St) :
    (getUserTokenInternal cfg code now env st).2.cache = st.cache ∧
    (getUser cfg user_id external_user_id now env st).2.cache =
      (grantUserAccessInternal cfg user_id external_user_id USER_READ_SCOPES now env st).2.cache ∧
    ((getValidToken cfg S now env st).2.cache = st.cache ∨
      (getValidToken cfg S now env st).2.cache =
        ((getAccessToken cfg (String.intercalate "," S) now env st).1).toOption) := by
  refine ⟨getUserTokenInternal_cache_eq cfg code now env st, ?_, ?_⟩
  · unfold getUser
    split
    case isTrue h =>
      simp [grantUserAccessInternal, h.1, h.2]
    case isFalse h =>
      split
      case isTrue h2 =>
        simp [grantUserAccessInternal, h, h2.1, h2.2]
      case isFalse h2 =>
        rcases hg : grantUserAccessInternal cfg user_id external_user_id
            USER_READ_SCOPES now env st with ⟨gr | gr, st1⟩
        · simp [hg]
        · simp only [hg]
          rcases hu : getUserTokenInternal cfg gr.code now env st1 with ⟨ur | ut, st2⟩
          · have := getUserTokenInternal_cache_eq cfg gr.code now env st1
            rw [hu] at this
            simpa [hu] using this
          · have hc2 : st2.cache = st1.cache := by
              have := getUserTokenInternal_cache_eq cfg gr.code now env st1
              rw [hu] at this
              simpa using this
            rcases he : env st2.sent.length with ⟨s, b⟩ | m | m
            · simp only [hu, post, he]
              split
              · rcases hp : b.parseUser with _ | u <;> simp [hp, hc2]
              · split <;> simp [hc2]
            · simp [hu, post, he, hc2]
            · simp [hu, post, he, hc2]
  · unfold getValidToken
    rcases hc : st.cache with _ | t
    · simp only [hc]
      rcases ha : getAccessToken cfg (String.intercalate "," S) now env st with ⟨r | tok, st2⟩
      · left
        have h2 : st2.cache = st.cache := by
          have := getAccessToken_cache_eq cfg (String.intercalate "," S) now env st
          rw [ha] at this
          simpa using this
        simpa [ha] using h2.trans hc
      · right
        simp [ha, Except.toOption]
    · simp only [hc]
      split
      · left
        exact hc
      · rcases ha : getAccessToken cfg (String.intercalate "," S) now env st with ⟨r | tok, st2⟩
        · left
          have h2 : st2.cache = st.cache := by
            have := getAccessToken_cache_eq cfg (String.intercalate "," S) now env st
            rw [ha] at this
            simpa using this
          simpa [ha] using h2.trans hc
        · right
          simp [ha, Except.toOption]

lemma getValidToken_eq_specGetValid (cfg : ClientConfig) (S : List String)
    (now : Int) (env : Env) (st : St) :
    getValidToken cfg S now env st = specGetValid cfg S now env st := by
  unfold getValidToken specGetValid
  rcases hc : st.cache with _ | t
  · simp only [hc]
  · simp only [hc]
    split <;> rfl

/-- Claim C3: getValid returns the cached token exactly when one is
present, unexpired and a scope-superset of the requirement (the
specGetValid contract, proved for every state); on a miss it fetches
with the comma-joined scope string in caller order, stores the token
replacing the prior entry, and returns it; and a second call with no
intervening expiry or invalidation reuses the stored token, so the two
calls issue exactly one network fetch. -/
theorem get_valid_token_cache_contract (cfg : ClientConfig) (S : List String)
    (now1 now2 : Int) (env : Env) (st : St) (tr : TokenResponse)
    (hcache : st.cache = none)
    (henv : env st.sent.length = .http 200 (.tokenBody tr))
    (hexp : (Token.from_token_response tr now1).is_expired now2 = false)
    (hsc : (Token.from_token_response tr now1).has_all_scopes S = true) :
    (∀ st2 : St, getValidToken cfg S now1 env st2 = specGetValid cfg S now1 env st2) ∧
    getValidToken cfg S now1 env st =
      (.ok (Token.from_token_response tr now1),
       { cache := some (Token.from_token_response tr now1),
         sent := st.sent ++ [ccTokenHttpRequest cfg (String.intercalate "," S)] }) ∧
    getValidToken cfg S now2 env (getValidToken cfg S now1 env st).2 =
      (.ok (Token.from_token_response tr now1), (getValidToken cfg S now1 env st).2) ∧
    (getValidToken cfg S now1 env st).2.sent.length = st.sent.length + 1 := by
  have hfetch := getAccessToken_ok cfg (String.intercalate "," S) now1 env st tr henv
  have h1 : getValidToken cfg S now1 env st =
      (.ok (Token.from_token_response tr now1),
       { cache := some (Token.from_token_response tr now1),
         sent := st.sent ++ [ccTokenHttpRequest cfg (String.intercalate "," S)] }) := by
    unfold getValidToken
    simp only [hcache, hfetch]
  refine ⟨fun st2 => getValidToken_eq_specGetValid cfg S now1 env st2, h1, ?_, ?_⟩
  · rw [h1]
    unfold getValidToken
    simp [hexp, hsc]
  · rw [h1]
    simp

/-- Claim C1, settled against the code: with a transport that answers
every endpoint request 401 while the token endpoint keeps succeeding,
create_user and the authorization-grant step do make exactly 2 endpoint
attempts and stop, but the second 401 is raised by the
raise_for_status inside the except handler and escapes the sibling
except clauses, so the caller sees a raw httpx.HTTPStatusError rather
than TinkAuthenticationError. -/
theorem second_401_escapes_unwrapped :
    (createUser cfgT "ES" "es_ES" none 0 envC1 st0).1 =
      .error (.httpStatusError 401) ∧
    sentTo (createUser cfgT "ES" "es_ES" none 0 envC1 st0).2
      (cfgT.base_url ++ CREATE_USER_ENDPOINT) = 2 ∧
    (grantUserAccessInternal cfgT (some "u1") none ["user:read"] 0 envC1 st0).1 =
      .error (.httpStatusError 401) ∧
    sentTo (grantUserAccessInternal cfgT (some "u1") none ["user:read"] 0 envC1 st0).2
      (cfgT.base_url ++ AUTHORIZATION_GRANT_ENDPOINT) = 2 :=
  ⟨rfl, rfl, rfl, rfl⟩

/-- Claim C2, counterexample: get_user answered 401 on its authenticated
request raises TinkAuthenticationError after a single attempt, without
invalidating the cached token and without any retry, contradicting the
claim that every endpoint method applies the invalidate-and-retry-once
policy. -/
theorem get_user_401_no_retry_counterexample :
    (getUser cfgT (some "u1") none 0 envC2 st0).1 =
      .error (.authenticationError "Invalid user token") ∧
    sentTo (getUser cfgT (some "u1") none 0 envC2 st0).2
      (cfgT.base_url ++ USER_ENDPOINT) = 1 ∧
    (getUser cfgT (some "u1") none 0 envC2 st0).2.cache =
      some (Token.from_token_response trT 0) :=
  ⟨rfl, rfl, rfl⟩

/-- Claim C2 as amended: create_user applies the retry policy, making a
second endpoint attempt with a freshly fetched token that then sits in
the cache, while get_user and delete_user issue their authenticated
request exactly once and raise TinkAuthenticationError immediately on a
401, with the cached token not invalidated. -/
theorem endpoint_retry_policy_amended (env env2 : Env)
    (tr tr2 tr3 tr4 : TokenResponse) (c : String) (b b2 : Body) (uid : String)
    (h0 : env 0 = .http 200 (.tokenBody tr))
    (h1 : env 1 = .http 200 (.grantBody c))
    (h2 : env 2 = .http 200 (.tokenBody tr2))
    (h3 : env 3 = .http 401 b)
    (g0 : env2 0 = .http 200 (.tokenBody tr3))
    (g1 : env2 1 = .http 401 b2)
    (g2 : env2 2 = .http 200 (.tokenBody tr4))
    (g3 : env2 3 = .http 200 (.createUserBody uid)) :
    (getUser cfgT (some "u1") none 0 env st0).1 =
      .error (.authenticationError "Invalid user token") ∧
    sentTo (getUser cfgT (some "u1") none 0 env st0).2
      (cfgT.base_url ++ USER_ENDPOINT) = 1 ∧
    (getUser cfgT (some "u1") none 0 env st0).2.cache =
      some (Token.from_token_response tr 0) ∧
    (deleteUser cfgT (some "u1") none 0 env st0).1 =
      .error (.authenticationError "Invalid user token") ∧
    sentTo (deleteUser cfgT (some "u1") none 0 env st0).2
      (cfgT.base_url ++ DELETE_USER_ENDPOINT) = 1 ∧
    (deleteUser cfgT (some "u1") none 0 env st0).2.cache =
      some (Token.from_token_response tr 0) ∧
    (createUser cfgT "ES" "es_ES" none 0 env2 st0).1 = .ok ⟨uid⟩ ∧
    sentTo (createUser cfgT "ES" "es_ES" none 0 env2 st0).2
      (cfgT.base_url ++ CREATE_USER_ENDPOINT) = 2 ∧
    (createUser cfgT "ES" "es_ES" none 0 env2 st0).2.cache =
      some (Token.from_token_response tr4 0) := by
  have hx : truthy (some "u1") ≠ truthy (none : Option String) := by decide
  have h401s : isSuccess 401 = false := rfl
  have h200 : isSuccess 200 = true := rfl
  have hgu : getUser cfgT (some "u1") none 0 env st0 =
      (.error (.authenticationError "Invalid user token"),
       { cache := some (Token.from_token_response tr 0),
         sent := [ccTokenHttpRequest cfgT (String.intercalate "," USER_CREATION_SCOPES),
                  grantHttpRequest cfgT (Token.from_token_response tr 0)
                    (some "u1") none USER_READ_SCOPES,
                  userTokenHttpRequest cfgT c,
                  { url := cfgT.base_url ++ USER_ENDPOINT,
                    contentType := "application/json",
                    auth := some (authHeader (Token.from_token_response tr2 0)),
                    formData := [] }] }) := by
    have hgr := grantUserAccessInternal_ok cfgT (some "u1") none USER_READ_SCOPES
      0 env st0 tr c hx rfl rfl h0 h1
    unfold getUser
    rw [if_neg (by decide), if_neg (by decide)]
    simp only [hgr]
    rw [getUserTokenInternal_ok cfgT c 0 env _ tr2 (by simpa [st0] using h2)]
    simp only [post, st0, List.nil_append, List.singleton_append, List.cons_append,
      List.append_assoc, List.length_cons, List.length_nil]
    rw [h3]
    simp [h401s]
  have hdu : deleteUser cfgT (some "u1") none 0 env st0 =
      (.error (.authenticationError "Invalid user token"),
       { cache := some (Token.from_token_response tr 0),
         sent := [ccTokenHttpRequest cfgT (String.intercalate "," USER_CREATION_SCOPES),
                  grantHttpRequest cfgT (Token.from_token_response tr 0)
                    (some "u1") none USER_DELETE_SCOPES,
                  userTokenHttpRequest cfgT c,
                  { url := cfgT.base_url ++ DELETE_USER_ENDPOINT,
                    contentType := "application/json",
                    auth := some (authHeader (Token.from_token_response tr2 0)),
                    formData := [] }] }) := by
    have hgrd := grantUserAccessInternal_ok cfgT (some "u1") none USER_DELETE_SCOPES
      0 env st0 tr c hx rfl rfl h0 h1
    unfold deleteUser
    rw [if_neg (by decide), if_neg (by decide)]
    simp only [hgrd]
    rw [getUserTokenInternal_ok cfgT c 0 env _ tr2 (by simpa [st0] using h2)]
    simp only [post, st0, List.nil_append, List.singleton_append, List.cons_append,
      List.append_assoc, List.length_cons, List.length_nil]
    rw [h3]
    simp [h401s]
  have hcu : createUser cfgT "ES" "es_ES" none 0 env2 st0 =
      (.ok ⟨uid⟩,
       { cache := some (Token.from_token_response tr4 0),
         sent := [ccTokenHttpRequest cfgT (String.intercalate "," USER_CREATION_SCOPES),
                  { url := cfgT.base_url ++ CREATE_USER_ENDPOINT,
                    contentType := "application/json",
                    auth := some (authHeader (Token.from_token_response tr3 0)),
                    formData := [("market", some "ES"), ("locale", some "es_ES")] },
                  ccTokenHttpRequest cfgT (String.intercalate "," USER_CREATION_SCOPES),
                  { url := cfgT.base_url ++ CREATE_USER_ENDPOINT,
                    contentType := "application/json",
                    auth := some (authHeader (Token.from_token_response tr4 0)),
                    formData := [("market", some "ES"), ("locale", some "es_ES")] }] }) := by
    have hv1 := getValidToken_none_ok cfgT USER_CREATION_SCOPES 0 env2 st0 tr3 rfl g0
    unfold createUser
    simp only [hv1]
    simp only [post, st0, List.nil_append, List.singleton_append, List.cons_append,
      List.append_assoc, List.length_cons, List.length_nil]
    rw [g1]
    simp only [h401s, Bool.false_eq_true, if_false, reduceIte]
    rw [getValidToken_none_ok cfgT USER_CREATION_SCOPES 0 env2 _ tr4 rfl
      (by simpa [st0] using g2)]
    simp only [post, st0, List.nil_append, List.singleton_append, List.cons_append,
      List.append_assoc, List.length_cons, List.length_nil]
    rw [g3]
    simp [h200, CreateUserRequest.model_dump_exclude_none, Body.parseCreateUser]
  rw [hgu, hdu, hcu]
  exact ⟨rfl, rfl, rfl, rfl, rfl, rfl, rfl, rfl, rfl⟩

/-- Witness for the amended retry-policy theorem at concrete
environments. -/
theorem endpoint_retry_policy_amended_witness :
    (getUser cfgT (some "u1") none 0 envC2 st0).1 =
      .error (.authenticationError "Invalid user token") ∧
    sentTo (getUser cfgT (some "u1") none 0 envC2 st0).2
      (cfgT.base_url ++ USER_ENDPOINT) = 1 ∧
    (getUser cfgT (some "u1") none 0 envC2 st0).2.cache =
      some (Token.from_token_response trT 0) ∧
    (deleteUser cfgT (some "u1") none 0 envC2 st0).1 =
      .error (.authenticationError "Invalid user token") ∧
    sentTo (deleteUser cfgT (some "u1") none 0 envC2 st0).2
      (cfgT.base_url ++ DELETE_USER_ENDPOINT) = 1 ∧
    (deleteUser cfgT (some "u1") none 0 envC2 st0).2.cache =
      some (Token.from_token_response trT 0) ∧
    (createUser cfgT "ES" "es_ES" none 0 envC3 st0).1 = .ok ⟨"uid1"⟩ ∧
    sentTo (createUser cfgT "ES" "es_ES" none 0 envC3 st0).2
      (cfgT.base_url ++ CREATE_USER_ENDPOINT) = 2 ∧
    (createUser cfgT "ES" "es_ES" none 0 envC3 st0).2.cache =
      some (Token.from_token_response trT 0) :=
  endpoint_retry_policy_amended envC2 envC3 trT trT trT trT "xyz" .empty .empty "uid1"
    rfl rfl rfl rfl rfl rfl rfl rfl

/-- Witness for the getValid cache contract at a concrete environment,
with the empty required-scope list. -/
theorem get_valid_token_cache_contract_witness :
    (∀ st2 : St, getValidToken cfgT [] 0 envTok st2 = specGetValid cfgT [] 0 envTok st2) ∧
    getValidToken cfgT [] 0 envTok st0 =
      (.ok (Token.from_token_response trT 0),
       { cache := some (Token.from_token_response trT 0),
         sent := st0.sent ++ [ccTokenHttpRequest cfgT (String.intercalate "," [])] }) ∧
    getValidToken cfgT [] 10 envTok (getValidToken cfgT [] 0 envTok st0).2 =
      (.ok (Token.from_token_response trT 0), (getValidToken cfgT [] 0 envTok st0).2) ∧
    (getValidToken cfgT [] 0 envTok st0).2.sent.length = st0.sent.length + 1 :=
  get_valid_token_cache_contract cfgT [] 0 10 envTok st0 trT rfl rfl rfl rfl

/-- Claim C5, counterexample: user_id supplied as the empty string with
external_user_id absent is exactly one supplied argument, yet the call
fails validation, because the source uses Python truthiness and treats
the empty string like a missing argument. -/
theorem empty_subject_counterexample :
    (grantUserAccessInternal cfgT (some "") none ["user:read"] 0 envOk st0).1 =
      .error (.valueError "Either user_id or external_user_id must be provided") ∧
    (getUser cfgT (some "") none 0 envOk st0).1 =
      .error (.valueError "Either user_id or external_user_id must be provided") ∧
    (deleteUser cfgT (some "") none 0 envOk st0).1 =
      .error (.valueError "Either user_id or external_user_id must be provided") :=
  ⟨rfl, rfl, rfl⟩

/-- Claim C5 as amended: supplied means a non-None, non-empty subject
string (Python truthiness).  When zero or both subjects are truthy the
grant, get_user and delete_user calls fail with the validation
ValueError before any network request; when exactly one is truthy no
validation error is raised and, against a succeeding backend, the calls
complete. -/
theorem subject_validation_amended (cfg : ClientConfig) (scopes : List String)
    (now : Int) (env : Env) (uid euid : Option String)
    (tr tr2 : TokenResponse) (c u : String)
    (hx : truthy uid ≠ truthy euid)
    (hsne : (String.intercalate "," scopes).isEmpty = false)
    (h0 : env 0 = .http 200 (.tokenBody tr))
    (h1 : env 1 = .http 200 (.grantBody c))
    (h2 : env 2 = .http 200 (.tokenBody tr2))
    (h3 : env 3 = .http 200 (.userBody u)) :
    (∀ (a b : Option String) (st : St), truthy a = false → truthy b = false →
      grantUserAccessInternal cfg a b scopes now env st =
        (.error (.valueError "Either user_id or external_user_id must be provided"), st) ∧
      getUser cfg a b now env st =
        (.error (.valueError "Either user_id or external_user_id must be provided"), st) ∧
      deleteUser cfg a b now env st =
        (.error (.valueError "Either user_id or external_user_id must be provided"), st)) ∧
    (∀ (a b : Option String) (st : St), truthy a = true → truthy b = true →
      grantUserAccessInternal cfg a b scopes now env st =
        (.error (.valueError "Cannot specify both user_id and external_user_id"), st) ∧
      getUser cfg a b now env st =
        (.error (.valueError "Cannot specify both user_id and external_user_id"), st) ∧
      deleteUser cfg a b now env st =
        (.error (.valueError "Cannot specify both user_id and external_user_id"), st)) ∧
    (grantUserAccessInternal cfg uid euid scopes now env st0).1 = .ok ⟨c⟩ ∧
    (getUser cfg uid euid now env st0).1 = .ok ⟨u⟩ ∧
    (deleteUser cfg uid euid now env st0).1 = .ok () := by
  have h200 : isSuccess 200 = true := rfl
  refine ⟨?_, ?_, ?_, ?_, ?_⟩
  · intro a b st ha hb
    refine ⟨?_, ?_, ?_⟩
    · simp [grantUserAccessInternal, ha, hb]
    · simp [getUser, ha, hb]
    · simp [deleteUser, ha, hb]
  · intro a b st ha hb
    refine ⟨?_, ?_, ?_⟩
    · simp [grantUserAccessInternal, ha, hb]
    · simp [getUser, ha, hb]
    · simp [deleteUser, ha, hb]
  · have hgr := grantUserAccessInternal_ok cfg uid euid scopes now env st0 tr c
      hx hsne rfl h0 h1
    simp [hgr]
  · have hgr := grantUserAccessInternal_ok cfg uid euid USER_READ_SCOPES now env st0 tr c
      hx rfl rfl h0 h1
    unfold getUser
    rcases hu : truthy uid <;> rcases he : truthy euid <;> rw [hu, he] at hx <;>
      try exact absurd rfl hx
    all_goals
      rw [if_neg (by simp [hu, he]), if_neg (by simp [hu, he])]
      simp only [hgr]
      rw [getUserTokenInternal_ok cfg c now env _ tr2 (by simpa [st0] using h2)]
      simp only [post, st0, List.nil_append, List.singleton_append, List.cons_append,
        List.append_assoc, List.length_cons, List.length_nil]
      rw [h3]
      simp [h200, Body.parseUser]
  · have hgr := grantUserAccessInternal_ok cfg uid euid USER_DELETE_SCOPES now env st0 tr c
      hx rfl rfl h0 h1
    unfold deleteUser
    rcases hu : truthy uid <;> rcases he : truthy euid <;> rw [hu, he] at hx <;>
      try exact absurd rfl hx
    all_goals
      rw [if_neg (by simp [hu, he]), if_neg (by simp [hu, he])]
      simp only [hgr]
      rw [getUserTokenInternal_ok cfg c now env _ tr2 (by simpa [st0] using h2)]
      simp only [post, st0, List.nil_append, List.singleton_append, List.cons_append,
        List.append_assoc, List.length_cons, List.length_nil]
      rw [h3]
      simp [h200]

/-- Witness for the amended subject-validation theorem at concrete
inputs. -/
theorem subject_validation_amended_witness :
    (∀ (a b : Option String) (st : St), truthy a = false → truthy b = false →
      grantUserAccessInternal cfgT a b ["user:read"] 0 envOk st =
        (.error (.valueError "Either user_id or external_user_id must be provided"), st) ∧
      getUser cfgT a b 0 envOk st =
        (.error (.valueError "Either user_id or external_user_id must be provided"), st) ∧
      deleteUser cfgT a b 0 envOk st =
        (.error (.valueError "Either user_id or external_user_id must be provided"), st)) ∧
    (∀ (a b : Option String) (st : St), truthy a = true → truthy b = true →
      grantUserAccessInternal cfgT a b ["user:read"] 0 envOk st =
        (.error (.valueError "Cannot specify both user_id and external_user_id"), st) ∧
      getUser cfgT a b 0 envOk st =
        (.error (.valueError "Cannot specify both user_id and external_user_id"), st) ∧
      deleteUser cfgT a b 0 envOk st =
        (.error (.valueError "Cannot specify both user_id and external_user_id"), st)) ∧
    (grantUserAccessInternal cfgT (some "u1") none ["user:read"] 0 envOk st0).1 =
      .ok ⟨"xyz"⟩ ∧
    (getUser cfgT (some "u1") none 0 envOk st0).1 = .ok ⟨"payload"⟩ ∧
    (deleteUser cfgT (some "u1") none 0 envOk st0).1 = .ok () :=
  subject_validation_amended cfgT ["user:read"] 0 envOk (some "u1") none trT trT
    "xyz" "payload" (by decide) rfl rfl rfl rfl rfl

/-- Claim C10, settled against the code: _get_valid_token has no lock
around its check-then-fetch-then-store sequence, whose only suspension
point is the awaited fetch.  Under a round-robin cooperative schedule,
two concurrent calls with the same required scopes and an empty cache
both observe the empty cache and both issue a fetch: 2 fetches, where
the claim requires exactly 1.  Under a fully sequential schedule the
late task observes the stored token and no second fetch occurs. -/
theorem concurrent_get_valid_token_double_fetch :
    (runSched USER_CREATION_SCOPES 0 mintT [false, true, false, true] sh0
      (.ready, .ready)).1.fetchCount = 2 ∧
    (runSched USER_CREATION_SCOPES 0 mintT [false, true, false, true] sh0
      (.ready, .ready)).2 =
      (.finished (mintT (String.intercalate "," USER_CREATION_SCOPES)),
       .finished (mintT (String.intercalate "," USER_CREATION_SCOPES))) ∧
    (runSched [] 0 mintT [false, false, true] sh0 (.ready, .ready)).1.fetchCount = 1 :=
  ⟨rfl, rfl, rfl⟩

end TinkFinance
